import Mathlib

/-!
Verification of the kao kaomoji-picker core (Svelte frontend logic).

The definitions below are a shallow embedding of the reactive script in the
repository's single Svelte component, together with the `KaomojiEntry` type
from `src/lib/Types.ts`.  Strings are modelled as Lean `String` / `List Char`;
the JavaScript regular-expression scan in `FilteredResults` is modelled by an
explicit left-to-right scanner; asynchronous collaborators (Tauri invoke,
`navigator.clipboard`) are modelled by boolean success parameters.

Modelling notes, stated once here:
* JavaScript `\s`, `String.prototype.trim`, `toLowerCase`, and the Unicode
  property classes `\p{L}`/`\p{N}` are modelled for the character ranges the
  claims are settled on (ASCII plus opaque glyph text); Lean has no Unicode
  category tables, so `Char.isAlpha`/`Char.isDigit` stand in for the
  letter/number classes.
* The scanners use a fuel argument equal to the input length so that every
  definition is structurally recursive and computable; each loop iteration of
  the JavaScript scan consumes at least one character, so length fuel is
  always sufficient.
* `SelectedIndex` is modelled as `Nat`: every assignment in the source keeps
  it non-negative (`0`, `(i+1)%n`, `(i-1+n)%n` with `i ≥ 0`, `Math.min`,
  `Math.max(.., 0)`).  JavaScript `(i - 1 + n) % n` is written `(i + n - 1) % n`,
  which agrees for `i ≥ 0`, `n ≥ 1`.
-/

/-- Entry type from `src/lib/Types.ts`. -/
structure KaomojiEntry where
  Character : String
  Tags : List String
  Category : String
deriving DecidableEq, Repr

/-- JavaScript whitespace class used by the `\s` regex atom and by trim, restricted
to the characters that can occur in the modelled inputs. -/
def jsSpace (c : Char) : Bool :=
  c == ' ' || c == '\t' || c == '\n' || c == '\r' || c == '\x0b' || c == '\x0c'

/-- JavaScript `String.prototype.trim` on a character list. -/
def jsTrim (l : List Char) : List Char :=
  ((l.dropWhile jsSpace).reverse.dropWhile jsSpace).reverse

/-- JavaScript `String.prototype.trim` on a string. -/
def jsTrimStr (s : String) : String :=
  String.mk (jsTrim s.data)

/-- Character class of `/[^\p{L}\p{N}_-]/gu`: the characters the sanitizer keeps
(letters, digits, underscore, hyphen). -/
def isWordChar (c : Char) : Bool :=
  c.isAlpha || c.isDigit || c == '_' || c == '-'

/-- The value sanitizer in `FilteredResults`:
`value.replace(/[^\p{L}\p{N}_-]/gu, "").toLowerCase()`. -/
def sanitizeValue (v : List Char) : List Char :=
  (v.filter isWordChar).map Char.toLower

/-- The two structured-token kinds recognised by the regex `(cat|tag):`. -/
inductive TokKind where
  | cat
  | tag
deriving DecidableEq, Repr

/-- The literal keyword characters of a token kind, including the colon. -/
def tokKeyword : TokKind → List Char
  | TokKind.cat => ['c', 'a', 't', ':']
  | TokKind.tag => ['t', 'a', 'g', ':']

/-- One match of the token regex `(?:^|\s)(cat|tag):([^\s]+)`: the full matched
text (including the leading whitespace character when present), the kind, and
the raw (unsanitized) value. -/
structure TokenMatch where
  fullMatch : List Char
  kind : TokKind
  rawValue : List Char
deriving DecidableEq, Repr

/-- Try to match `cat:`/`tag:` followed by a non-empty run of non-whitespace
characters at the head of `l`; on success returns the kind, the raw value run,
and the rest of the input after the value. -/
def tryTokAt (l : List Char) : Option (TokKind × List Char × List Char) :=
  if List.isPrefixOf ['c', 'a', 't', ':'] l then
    let value := (l.drop 4).takeWhile (fun c => !jsSpace c)
    if value.isEmpty then none
    else some (TokKind.cat, value, (l.drop 4).dropWhile (fun c => !jsSpace c))
  else if List.isPrefixOf ['t', 'a', 'g', ':'] l then
    let value := (l.drop 4).takeWhile (fun c => !jsSpace c)
    if value.isEmpty then none
    else some (TokKind.tag, value, (l.drop 4).dropWhile (fun c => !jsSpace c))
  else none

/-- Scan for `\s(cat|tag):value` matches strictly after the start of the string:
each position is a candidate for the leading `\s`; after a match the scan
resumes at the first character after the value (the regex `lastIndex`). -/
def scanAuxF : Nat → List Char → List TokenMatch
  | 0, _ => []
  | _, [] => []
  | fuel + 1, c :: rest =>
    if jsSpace c then
      match tryTokAt rest with
      | some (k, v, rest') =>
          { fullMatch := c :: (tokKeyword k ++ v), kind := k, rawValue := v } ::
            scanAuxF fuel rest'
      | none => scanAuxF fuel rest
    else scanAuxF fuel rest

/-- All matches of `/(?:^|\s)(cat|tag):([^\s]+)/g` on `l`, left to right: the
anchor `^` can only fire at position `0`; every later match must consume a
whitespace character first. -/
def scanTokens (l : List Char) : List TokenMatch :=
  match tryTokAt l with
  | some (k, v, rest') =>
      { fullMatch := tokKeyword k ++ v, kind := k, rawValue := v } ::
        scanAuxF rest'.length rest'
  | none => scanAuxF l.length l

/-- JavaScript `String.prototype.replace` with a plain-string pattern: replaces
the first occurrence of `pat` (here by the empty string), or returns the input
unchanged when `pat` does not occur. -/
def replaceFirst : List Char → List Char → List Char
  | [], _ => []
  | c :: rest, pat =>
    if List.isPrefixOf pat (c :: rest) then (c :: rest).drop pat.length
    else c :: replaceFirst rest pat

/-- The structured tokens of a raw search query: the component first trims the
query, then runs the global regex over it. -/
def queryTokens (q : String) : List TokenMatch :=
  scanTokens (jsTrim q.data)

/-- The residual the component computes: starting from the trimmed query, for
each match in order, `remainingQuery = remainingQuery.replace(fullMatch, "").trim()`. -/
def parseResidual (q : String) : String :=
  String.mk
    ((queryTokens q).foldl (fun r m => jsTrim (replaceFirst r m.fullMatch))
      (jsTrim q.data))

/-- Variant of the scan that returns the characters not covered by any match
(the matched spans, each including its leading whitespace, are dropped). -/
def scanKeepF : Nat → List Char → List Char
  | 0, l => l
  | _, [] => []
  | fuel + 1, c :: rest =>
    if jsSpace c then
      match tryTokAt rest with
      | some (_, _, rest') => scanKeepF fuel rest'
      | none => c :: scanKeepF fuel rest
    else c :: scanKeepF fuel rest

/-- Residual as the specification describes it: the (trimmed) query with each
matched token span, including its leading whitespace, removed, and the
remainder trimmed.  This definition follows the spec's words and is compared
against `parseResidual`, which follows the code. -/
def specResidual (q : String) : String :=
  let query := jsTrim q.data
  let kept :=
    match tryTokAt query with
    | some (_, _, rest') => scanKeepF rest'.length rest'
    | none => scanKeepF query.length query
  String.mk (jsTrim kept)

/-- Predicate applied for one structured token in `FilteredResults`:
`cat` compares the lowercased category, `tag` asks for some lowercased tag,
both against the sanitized value. -/
def matchesToken (m : TokenMatch) (k : KaomojiEntry) : Bool :=
  match m.kind with
  | TokKind.cat => k.Category.data.map Char.toLower == sanitizeValue m.rawValue
  | TokKind.tag => k.Tags.any (fun t => t.data.map Char.toLower == sanitizeValue m.rawValue)

/-- Outcome of the ranking pipeline.  `plain` is a list the component returns
directly; `fuzzy` records that the candidates are handed to Fuse.js with the
given needle (the Fuse.js scoring itself is an external library and is not
modelled). -/
inductive RankOutcome where
  | plain (results : List KaomojiEntry)
  | fuzzy (candidates : List KaomojiEntry) (needle : String)
deriving DecidableEq, Repr

/-- The `FilteredResults` derived value: trims the query, scans for structured
tokens, applies each token filter in order while removing the matched text
from the remaining query, then dispatches on token presence and residual. -/
def FilteredResults (KaomojiList : List KaomojiEntry) (SearchQuery : String) :
    RankOutcome :=
  let query := jsTrim SearchQuery.data
  if query.isEmpty then RankOutcome.plain KaomojiList
  else
    let ms := scanTokens query
    let filtered := ms.foldl (fun acc m => acc.filter (matchesToken m)) KaomojiList
    let remaining := ms.foldl (fun r m => jsTrim (replaceFirst r m.fullMatch)) query
    if ms.isEmpty then RankOutcome.fuzzy KaomojiList (String.mk query)
    else if remaining.isEmpty then RankOutcome.plain filtered
    else RankOutcome.fuzzy filtered (String.mk remaining)

/-- The `$effect` that re-clamps `SelectedIndex` whenever `FilteredResults`
changes: `count = FilteredResults.length`; if `count === 0` the cursor becomes
`0`; else if `SelectedIndex >= count` it becomes `count - 1`; otherwise it is
unchanged. -/
def clampSelectedIndex (count SelectedIndex : Nat) : Nat :=
  if count == 0 then 0
  else if SelectedIndex ≥ count then count - 1
  else SelectedIndex

/-- `AddToRecents`: remove any element with the entry's `Character`, prepend
the entry, keep the first 8 (`slice(0, 8)`). -/
def AddToRecents (entry : KaomojiEntry) (RecentKaomojis : List KaomojiEntry) :
    List KaomojiEntry :=
  (entry :: RecentKaomojis.filter (fun k => !(k.Character == entry.Character))).take 8

/-- The inline upsert in `SubmitNewKaomoji`: `findIndex` on `Character`; when
found, `slice(0, index) ++ [entry] ++ slice(index + 1)`; otherwise append. -/
def upsertKaomoji (KaomojiList : List KaomojiEntry) (entry : KaomojiEntry) :
    List KaomojiEntry :=
  match KaomojiList.findIdx? (fun k => k.Character == entry.Character) with
  | some index => KaomojiList.take index ++ entry :: KaomojiList.drop (index + 1)
  | none => KaomojiList ++ [entry]

/-- The pieces of component state that `SubmitNewKaomoji` reads and writes. -/
structure FormState where
  KaomojiList : List KaomojiEntry
  NewCharacter : String
  NewTags : String
  NewCategory : String
  ShowAddModal : Bool
deriving DecidableEq, Repr

/-- `SubmitNewKaomoji`, with the external `SaveKaomoji` invoke modelled by the
`saveOk` flag: an early return on an all-whitespace character field; the entry
is built from the trimmed fields; the in-memory upsert and the form reset run
only inside the `try` after the save succeeded, so a failed save (the `catch`
branch, which only logs) leaves the state untouched. -/
def SubmitNewKaomoji (st : FormState) (saveOk : Bool) : FormState :=
  if (jsTrimStr st.NewCharacter).isEmpty then st
  else
    let entry : KaomojiEntry :=
      { Character := jsTrimStr st.NewCharacter
        Tags := ((st.NewTags.split (fun c => c == ',')).map jsTrimStr).filter
          (fun t => !(t == ""))
        Category := st.NewCategory }
    if saveOk then
      { st with
        KaomojiList := upsertKaomoji st.KaomojiList entry
        NewCharacter := ""
        NewTags := ""
        ShowAddModal := false }
    else st

/-- The merge step in `onMount`: when the loaded list is non-empty, append the
user entries whose `Character` is not already present (the JavaScript `Set` of
existing characters is modelled by the list of characters with membership by
string equality). -/
def mergeUserKaomojis (KaomojiList userItems : List KaomojiEntry) :
    List KaomojiEntry :=
  if userItems.length > 0 then
    let existingChars := KaomojiList.map (fun k => k.Character)
    let uniqueUserItems :=
      userItems.filter (fun k => !(existingChars.contains k.Character))
    KaomojiList ++ uniqueUserItems
  else KaomojiList

/-- The component state that `CopyToClipboard` reads and writes. -/
structure CopyState where
  KaomojiList : List KaomojiEntry
  RecentKaomojis : List KaomojiEntry
  LastCopied : String
  LastCopiedIndex : Int
deriving DecidableEq, Repr

/-- Everything observable about one `CopyToClipboard` call: the state after
the call, whether the fallback write was attempted, whether
`HandleCopySuccess` ran (the success signal driving the toast), and the
console warnings emitted.  The source has no other effect on failure: the
`catch` branches only `console.warn`, and the success block is skipped. -/
structure CopyOutcome where
  st : CopyState
  fallbackAttempted : Bool
  successSignal : Bool
  warnings : List String
deriving DecidableEq, Repr

/-- The success path shared by both write mechanisms: look the character up in
the catalog, record it in the recents when found, then `HandleCopySuccess`
(which stores `LastCopied`/`LastCopiedIndex`; its toast timer is presentation
only). -/
def recordCopySuccess (st : CopyState) (character : String) (index : Int) :
    CopyState :=
  let recents :=
    match st.KaomojiList.find? (fun k => k.Character == character) with
    | some entry => AddToRecents entry st.RecentKaomojis
    | none => st.RecentKaomojis
  { st with
    RecentKaomojis := recents
    LastCopied := character
    LastCopiedIndex := index }

/-- `CopyToClipboard`, with the Tauri invoke and the `navigator.clipboard`
fallback modelled by the `primaryOk`/`fallbackOk` flags: the fallback is tried
exactly when the primary write throws; each failure emits one console
warning; the success block runs when either write succeeded. -/
def CopyToClipboard (st : CopyState) (character : String) (index : Int)
    (primaryOk fallbackOk : Bool) : CopyOutcome :=
  if primaryOk then
    { st := recordCopySuccess st character index
      fallbackAttempted := false
      successSignal := true
      warnings := [] }
  else if fallbackOk then
    { st := recordCopySuccess st character index
      fallbackAttempted := true
      successSignal := true
      warnings := ["Native copy failed, trying fallback..."] }
  else
    { st := st
      fallbackAttempted := true
      successSignal := false
      warnings := ["Native copy failed, trying fallback...", "Navigator copy failed"] }

/-- The component state visible to `HandleKeyDown`.  `FilteredResults` holds
the current value of the derived result list (the handler reads it; the fuzzy
branch of the derivation is produced by Fuse.js, so the handler is modelled
over the list itself). -/
structure AppState where
  SearchQuery : String
  SelectedIndex : Nat
  ShowAddModal : Bool
  FilteredResults : List KaomojiEntry
  GridCols : Nat
deriving DecidableEq, Repr

/-- `HandleKeyDown`: the modal branch runs first and only reacts to Escape;
with the modal closed, navigation keys are ignored while typing in an input;
the handler returns before the key switch when the result list is empty;
Enter emits a copy request for the selected entry (the asynchronous
`CopyToClipboard` call), Escape clears the search query.
`ScrollToSelected` and `event.preventDefault` touch no modelled state. -/
def HandleKeyDown (st : AppState) (key : String) (isTyping : Bool) :
    AppState × Option (String × Int) :=
  if st.ShowAddModal then
    if key == "Escape" then ({ st with ShowAddModal := false }, none)
    else (st, none)
  else
    let navKeys := ["ArrowRight", "ArrowLeft", "ArrowDown", "ArrowUp"]
    if isTyping && navKeys.contains key then (st, none)
    else
      let itemsCount := st.FilteredResults.length
      if itemsCount == 0 then (st, none)
      else if key == "ArrowRight" then
        ({ st with SelectedIndex := (st.SelectedIndex + 1) % itemsCount }, none)
      else if key == "ArrowLeft" then
        ({ st with SelectedIndex := (st.SelectedIndex + itemsCount - 1) % itemsCount }, none)
      else if key == "ArrowDown" then
        ({ st with SelectedIndex := min (st.SelectedIndex + st.GridCols) (itemsCount - 1) }, none)
      else if key == "ArrowUp" then
        ({ st with SelectedIndex := st.SelectedIndex - st.GridCols }, none)
      else if key == "Enter" then
        match st.FilteredResults[st.SelectedIndex]? with
        | some item => (st, some (item.Character, (st.SelectedIndex : Int)))
        | none => (st, none)
      else if key == "Escape" then
        ({ st with SearchQuery := "" }, none)
      else (st, none)

/-!  Theorems.  -/

/-- Applying the token filters one after the other, as the scan loop does,
filters by the conjunction of all token predicates. -/
theorem foldl_filter_all {α β : Type} (p : α → β → Bool) (ms : List α) (l : List β) :
    ms.foldl (fun acc m => acc.filter (p m)) l =
      l.filter (fun b => ms.all (fun m => p m b)) := by
  induction ms generalizing l with
  | nil => simp
  | cons m ms ih =>
    simp only [List.foldl_cons, ih, List.filter_filter]
    apply List.filter_congr
    intro b _
    simp [Bool.and_comm]

/-- Whenever the scan finds structured tokens and the computed residual comes
out empty, the ranker returns the catalog filtered by the conjunction of all
token predicates, in catalog order, without entering the Fuse.js branch.
(With the residual computation as it is, this happens for single-token
queries; see the C1 and C2 theorems for the multi-token behaviour.) -/
theorem FilteredResults_plain_of_residual_empty (catalog : List KaomojiEntry)
    (q : String) (hTok : queryTokens q ≠ []) (hRes : parseResidual q = "") :
    FilteredResults catalog q =
      RankOutcome.plain (catalog.filter
        (fun k => (queryTokens q).all (fun m => matchesToken m k))) := by
  have hq : jsTrim q.data ≠ [] := by
    intro h0
    apply hTok
    unfold queryTokens
    rw [h0]
    rfl
  have hfold : (queryTokens q).foldl
      (fun r m => jsTrim (replaceFirst r m.fullMatch)) (jsTrim q.data) = [] :=
    congrArg String.data hRes
  unfold queryTokens at hTok hfold
  simp only [FilteredResults]
  rw [if_neg (by simpa using hq), if_neg (by simpa using hTok),
    if_pos (by rw [hfold]; rfl)]
  rw [foldl_filter_all]
  rfl

/-- C4: the `$effect` clamp keeps the selection cursor invariant: length `0`
pins the cursor to `0`; for a non-empty list the result is in `[0, count - 1]`
(the lower bound is inherent to the `Nat` model, matching that the source only
ever assigns non-negative indices); a cursor at or beyond the new length is
clamped to `count - 1`; an in-range cursor is unchanged. -/
theorem clampSelectedIndex_spec (count cur : Nat) :
    (count = 0 → clampSelectedIndex count cur = 0) ∧
    (count ≠ 0 → clampSelectedIndex count cur ≤ count - 1) ∧
    (count ≠ 0 → cur ≥ count → clampSelectedIndex count cur = count - 1) ∧
    (count ≠ 0 → cur < count → clampSelectedIndex count cur = cur) := by
  unfold clampSelectedIndex
  refine ⟨fun h => by simp [h], fun h => ?_, fun h h' => ?_, fun h h' => ?_⟩
  · split
    · omega
    · split
      · omega
      · next hc hlt => omega
  · rw [if_neg (by simpa using h), if_pos h']
  · rw [if_neg (by simpa using h), if_neg (by omega)]

/-- C4 witness: the clamp evaluated on example scenario 4 of the spec (length
drops to 3 while the cursor was 7) and on the empty and in-range cases. -/
theorem clampSelectedIndex_spec_witness :
    clampSelectedIndex 3 7 = 2 ∧ clampSelectedIndex 0 5 = 0 ∧
    clampSelectedIndex 10 4 = 4 := by
  refine ⟨(clampSelectedIndex_spec 3 7).2.2.1 (by decide) (by decide),
    (clampSelectedIndex_spec 0 5).1 rfl,
    (clampSelectedIndex_spec 10 4).2.2.2 (by decide) (by decide)⟩

/-- C6: when the external save fails, `SubmitNewKaomoji` leaves the in-memory
catalog exactly as it was — the upsert runs only after the awaited save
resolves, and the `catch` branch only logs. -/
theorem SubmitNewKaomoji_save_failure (st : FormState) :
    (SubmitNewKaomoji st false).KaomojiList = st.KaomojiList := by
  unfold SubmitNewKaomoji
  split
  · rfl
  · rfl

/-- C8: the startup merge equals appending exactly the user entries whose
`Character` does not occur in the catalog (exact string equality), in their
original relative order, with the original catalog kept unchanged as a
prefix. -/
theorem mergeUserKaomojis_spec (catalog userItems : List KaomojiEntry) :
    mergeUserKaomojis catalog userItems =
      catalog ++ userItems.filter
        (fun u => !(catalog.any (fun k => u.Character == k.Character))) ∧
    (mergeUserKaomojis catalog userItems).take catalog.length = catalog := by
  have h : mergeUserKaomojis catalog userItems =
      catalog ++ userItems.filter
        (fun u => !(catalog.any (fun k => u.Character == k.Character))) := by
    unfold mergeUserKaomojis
    split
    · show catalog ++ userItems.filter
          (fun k => !((catalog.map (fun k => k.Character)).contains k.Character)) =
        catalog ++ userItems.filter
          (fun u => !(catalog.any (fun k => u.Character == k.Character)))
      congr 1
      apply List.filter_congr
      intro u _
      rw [List.contains_eq_any_beq]
      rcases hl : (catalog.map (fun k => k.Character)).any (fun x => u.Character == x)
        <;> rcases hr : catalog.any (fun k => u.Character == k.Character)
        <;> simp_all
      obtain ⟨x, hx, he⟩ := hr
      exact absurd he (hl x hx)
    · next hlen =>
      cases userItems with
      | nil => simp
      | cons u us => simp at hlen
  refine ⟨h, ?_⟩
  rw [h]
  exact List.take_left _ _

/-- Elements surviving the recency filter keep a `Character` different from
the recorded one. -/
theorem mem_addToRecents_filter {l : List KaomojiEntry} {e a : KaomojiEntry}
    (ha : a ∈ l.filter (fun k => !(k.Character == e.Character))) :
    a.Character ≠ e.Character := by
  have := List.of_mem_filter ha
  simpa using this

/-- C7: recording twice with the same `Character` keeps the length and puts
the second entry at the front; recording preserves `Character`-uniqueness;
the recency list never exceeds the capacity of 8. -/
theorem AddToRecents_spec :
    (∀ (l : List KaomojiEntry) (e₁ e₂ : KaomojiEntry), e₁.Character = e₂.Character →
      (AddToRecents e₂ (AddToRecents e₁ l)).length = (AddToRecents e₁ l).length ∧
      (AddToRecents e₂ (AddToRecents e₁ l)).head? = some e₂) ∧
    (∀ (l : List KaomojiEntry) (e : KaomojiEntry),
      (l.map (fun k => k.Character)).Nodup →
      ((AddToRecents e l).map (fun k => k.Character)).Nodup) ∧
    (∀ (l : List KaomojiEntry) (e : KaomojiEntry), (AddToRecents e l).length ≤ 8) := by
  refine ⟨?_, ?_, ?_⟩
  · intro l e₁ e₂ hch
    have h1 : AddToRecents e₁ l =
        e₁ :: (l.filter (fun k => !(k.Character == e₁.Character))).take 7 := by
      unfold AddToRecents
      rw [List.take_succ_cons]
    have hfil : (AddToRecents e₁ l).filter (fun k => !(k.Character == e₂.Character)) =
        (l.filter (fun k => !(k.Character == e₁.Character))).take 7 := by
      rw [h1, List.filter_cons_of_neg (by simp [hch]), List.filter_eq_self.mpr]
      intro a ha
      have : a.Character ≠ e₁.Character :=
        mem_addToRecents_filter (List.mem_of_mem_take ha)
      simp [hch ▸ this]
    have h2 : AddToRecents e₂ (AddToRecents e₁ l) =
        e₂ :: (l.filter (fun k => !(k.Character == e₁.Character))).take 7 := by
      show (e₂ :: (AddToRecents e₁ l).filter
          (fun k => !(k.Character == e₂.Character))).take 8 = _
      rw [hfil, List.take_succ_cons, List.take_take]
      simp
    rw [h2, h1]
    simp
  · intro l e h
    have hsub : List.Sublist (AddToRecents e l)
        (e :: l.filter (fun k => !(k.Character == e.Character))) :=
      List.take_sublist _ _
    have hnodup :
        ((e :: l.filter (fun k => !(k.Character == e.Character))).map
          (fun k => k.Character)).Nodup := by
      rw [List.map_cons, List.nodup_cons]
      constructor
      · intro hmem
        obtain ⟨a, ha, hc⟩ := List.mem_map.mp hmem
        exact mem_addToRecents_filter ha hc
      · exact List.Nodup.sublist
          (List.Sublist.map (fun k => k.Character) (List.filter_sublist l)) h
    exact List.Nodup.sublist
      (List.Sublist.map (fun k => k.Character) hsub) hnodup
  · intro l e
    unfold AddToRecents
    simp

/-- C5: the upsert in `SubmitNewKaomoji`: when the entry's `Character` is
found at index `i`, the entry replaces position `i` (all fields overwritten),
the catalog length is unchanged, and every other position is untouched; when
the `Character` is absent, the entry is appended at the end. -/
theorem upsertKaomoji_spec (l : List KaomojiEntry) (e : KaomojiEntry) :
    (∀ i, l.findIdx? (fun k => k.Character == e.Character) = some i →
      (upsertKaomoji l e).length = l.length ∧
      (upsertKaomoji l e)[i]? = some e ∧
      ∀ j, j ≠ i → (upsertKaomoji l e)[j]? = l[j]?) ∧
    (l.findIdx? (fun k => k.Character == e.Character) = none →
      upsertKaomoji l e = l ++ [e]) := by
  constructor
  · intro i hfind
    have hi : i < l.length :=
      (List.findIdx?_eq_some_iff_findIdx_eq.mp hfind).1
    have hup : upsertKaomoji l e = l.take i ++ e :: l.drop (i + 1) := by
      unfold upsertKaomoji
      rw [hfind]
    have hlen_take : (l.take i).length = i := by
      rw [List.length_take]
      omega
    refine ⟨?_, ?_, ?_⟩
    · rw [hup]
      simp only [List.length_append, List.length_cons, List.length_drop, hlen_take]
      omega
    · rw [hup, List.getElem?_append_right (by omega)]
      simp [hlen_take]
    · intro j hj
      rcases Nat.lt_or_ge j i with hlt | hge
      · rw [hup, List.getElem?_append_left (by omega),
          List.getElem?_take_of_lt hlt]
      · have hgt : i < j := Nat.lt_of_le_of_ne hge (fun h => hj h.symm)
        rw [hup, List.getElem?_append_right (by omega), hlen_take]
        have hsub : j - i = (j - i - 1) + 1 := by omega
        rw [hsub]
        simp only [List.getElem?_cons_succ, List.getElem?_drop]
        congr 1
        omega
  · intro hfind
    unfold upsertKaomoji
    rw [hfind]

/-- C5 witness: a glyph already present is replaced in place (position and
length preserved, the other entry untouched); a new glyph is appended. -/
theorem upsertKaomoji_spec_witness :
    (upsertKaomoji
        [{ Character := "(A)", Tags := ["a"], Category := "Joy" },
         { Character := "(B)", Tags := ["b"], Category := "Joy" }]
        { Character := "(B)", Tags := ["x"], Category := "Love" }).length = 2 ∧
    (upsertKaomoji
        [{ Character := "(A)", Tags := ["a"], Category := "Joy" },
         { Character := "(B)", Tags := ["b"], Category := "Joy" }]
        { Character := "(B)", Tags := ["x"], Category := "Love" })[1]? =
      some { Character := "(B)", Tags := ["x"], Category := "Love" } ∧
    (upsertKaomoji
        [{ Character := "(A)", Tags := ["a"], Category := "Joy" }]
        { Character := "(C)", Tags := [], Category := "Love" }) =
      [{ Character := "(A)", Tags := ["a"], Category := "Joy" },
       { Character := "(C)", Tags := [], Category := "Love" }] := by
  refine ⟨((upsertKaomoji_spec _ _).1 1 (by decide)).1, ?_, ?_⟩
  · exact ((upsertKaomoji_spec _ _).1 1 (by decide)).2.1
  · exact (upsertKaomoji_spec _ _).2 (by decide)

/-- C7 witness: recording `(A)` twice (second time with different tags) keeps
the length unchanged and moves the newer entry to the front;
uniqueness is preserved from a concrete unique list. -/
theorem AddToRecents_spec_witness :
    (AddToRecents { Character := "(A)", Tags := ["new"], Category := "Joy" }
        (AddToRecents { Character := "(A)", Tags := ["old"], Category := "Joy" }
          [{ Character := "(B)", Tags := [], Category := "Joy" }])).length =
      (AddToRecents { Character := "(A)", Tags := ["old"], Category := "Joy" }
        [{ Character := "(B)", Tags := [], Category := "Joy" }]).length ∧
    (AddToRecents { Character := "(A)", Tags := ["new"], Category := "Joy" }
        (AddToRecents { Character := "(A)", Tags := ["old"], Category := "Joy" }
          [{ Character := "(B)", Tags := [], Category := "Joy" }])).head? =
      some { Character := "(A)", Tags := ["new"], Category := "Joy" } ∧
    ((AddToRecents { Character := "(A)", Tags := [], Category := "Joy" }
        [{ Character := "(B)", Tags := [], Category := "Joy" }]).map
        (fun k => k.Character)).Nodup := by
  refine ⟨(AddToRecents_spec.1 _ _ _ rfl).1, (AddToRecents_spec.1 _ _ _ rfl).2,
    AddToRecents_spec.2.1 _ _ (by decide)⟩

/-- C1 (failing input): the query consisting only of the two structured
tokens of the README example syntax is not returned as the filtered subset in
Catalog order: both token filters are applied, but the token text left in the
residual (see the C2 theorem) sends the filtered subset into the Fuse.js
branch with needle "tag:cute", so the result is fuzzy-ranked and subject to
score-threshold pruning.  A single-token query, whose residual does come out
empty, is returned plainly as the claim describes. -/
theorem FilteredResults_combined_tokens_bug :
    FilteredResults
        [{ Character := "(A)", Tags := ["cute"], Category := "Joy" },
         { Character := "(B)", Tags := ["sad"], Category := "Sadness" }]
        "cat:joy tag:cute" =
      RankOutcome.fuzzy
        [{ Character := "(A)", Tags := ["cute"], Category := "Joy" }] "tag:cute" ∧
    FilteredResults
        [{ Character := "(A)", Tags := ["cute"], Category := "Joy" },
         { Character := "(B)", Tags := ["sad"], Category := "Sadness" }]
        "cat:joy" =
      RankOutcome.plain
        [{ Character := "(A)", Tags := ["cute"], Category := "Joy" }] := by
  decide

/-- C2 (failing input): the residual is computed by repeatedly replacing the
first occurrence of each full match and trimming after every step, not by
removing the matched spans: after the first removal the trim deletes the
whitespace that leads the next full match, so that match is no longer found.
For "tag:a tag:a" and for "cat:joy tag:cute" the code leaves the second
token's text in the residual, while the removal the claim describes
(`specResidual`) leaves it empty. -/
theorem parseResidual_replace_trim_bug :
    parseResidual "tag:a tag:a" = "tag:a" ∧
    specResidual "tag:a tag:a" = "" ∧
    parseResidual "cat:joy tag:cute" = "tag:cute" ∧
    specResidual "cat:joy tag:cute" = "" := by
  decide

/-- C3 (counterexample): with both clipboard writes failing, the complete
observable outcome of a copy commit is: the state unchanged (so the recency
list is untouched), the single fallback attempt, no success signal, and the
two console warnings.  No component of the outcome is a "copy failed" signal:
the source's catch branches only log, and nothing UI-visible is written on
the double-failure path. -/
theorem CopyToClipboard_both_fail_counterexample :
    CopyToClipboard
        { KaomojiList := [{ Character := "(A)", Tags := [], Category := "Joy" }],
          RecentKaomojis := [], LastCopied := "", LastCopiedIndex := -1 }
        "(A)" 0 false false =
      { st := { KaomojiList := [{ Character := "(A)", Tags := [], Category := "Joy" }],
                RecentKaomojis := [], LastCopied := "", LastCopiedIndex := -1 },
        fallbackAttempted := true,
        successSignal := false,
        warnings := ["Native copy failed, trying fallback...", "Navigator copy failed"] } := by
  decide

/-- C3 (amended): the fallback write is attempted exactly when the primary
write fails; when both fail, the state — in particular the recency list — is
unchanged, no success signal fires, and the only emissions are the two
console warnings (no UI-facing "copy failed" signal exists); when either
write succeeds and the copied character is present in the catalog (true at
every call site), the recency list is updated through `AddToRecents` and the
success signal fires. -/
theorem CopyToClipboard_amended (st : CopyState) (character : String) (index : Int)
    (primaryOk fallbackOk : Bool) :
    ((CopyToClipboard st character index primaryOk fallbackOk).fallbackAttempted
        = !primaryOk) ∧
    (primaryOk = false → fallbackOk = false →
      (CopyToClipboard st character index primaryOk fallbackOk).st = st ∧
      (CopyToClipboard st character index primaryOk fallbackOk).successSignal = false ∧
      (CopyToClipboard st character index primaryOk fallbackOk).warnings =
        ["Native copy failed, trying fallback...", "Navigator copy failed"]) ∧
    ((primaryOk || fallbackOk) = true →
      (CopyToClipboard st character index primaryOk fallbackOk).successSignal = true ∧
      ∀ e, st.KaomojiList.find? (fun k => k.Character == character) = some e →
        (CopyToClipboard st character index primaryOk fallbackOk).st.RecentKaomojis =
          AddToRecents e st.RecentKaomojis) := by
  cases primaryOk <;> cases fallbackOk
  · exact ⟨rfl, fun _ _ => ⟨rfl, rfl, rfl⟩, fun h => absurd h (by decide)⟩
  · refine ⟨rfl, fun _ h => absurd h (by decide), fun _ => ⟨rfl, fun e he => ?_⟩⟩
    show (recordCopySuccess st character index).RecentKaomojis = _
    unfold recordCopySuccess
    rw [he]
  · refine ⟨rfl, fun h _ => absurd h (by decide), fun _ => ⟨rfl, fun e he => ?_⟩⟩
    show (recordCopySuccess st character index).RecentKaomojis = _
    unfold recordCopySuccess
    rw [he]
  · refine ⟨rfl, fun h _ => absurd h (by decide), fun _ => ⟨rfl, fun e he => ?_⟩⟩
    show (recordCopySuccess st character index).RecentKaomojis = _
    unfold recordCopySuccess
    rw [he]

/-- C3 amended witness: a concrete fallback-success commit updates the
recency list and fires the success signal. -/
theorem CopyToClipboard_amended_witness :
    (CopyToClipboard
        { KaomojiList := [{ Character := "(A)", Tags := [], Category := "Joy" }],
          RecentKaomojis := [], LastCopied := "", LastCopiedIndex := -1 }
        "(A)" 0 false true).successSignal = true ∧
    (CopyToClipboard
        { KaomojiList := [{ Character := "(A)", Tags := [], Category := "Joy" }],
          RecentKaomojis := [], LastCopied := "", LastCopiedIndex := -1 }
        "(A)" 0 false true).st.RecentKaomojis =
      AddToRecents { Character := "(A)", Tags := [], Category := "Joy" } [] := by
  refine ⟨((CopyToClipboard_amended _ "(A)" 0 false true).2.2 rfl).1, ?_⟩
  exact ((CopyToClipboard_amended _ "(A)" 0 false true).2.2 rfl).2 _ (by decide)

/-- C9: horizontal navigation wraps modulo the result count: ArrowRight on
the last index yields index 0, ArrowLeft on index 0 yields the last index,
and both keys are complete no-ops when the result list is empty (the
empty-count guard returns first). -/
theorem HandleKeyDown_horizontal_wrap (st : AppState)
    (hModal : st.ShowAddModal = false) :
    (st.FilteredResults ≠ [] →
      st.SelectedIndex = st.FilteredResults.length - 1 →
      (HandleKeyDown st "ArrowRight" false).1.SelectedIndex = 0) ∧
    (st.FilteredResults ≠ [] → st.SelectedIndex = 0 →
      (HandleKeyDown st "ArrowLeft" false).1.SelectedIndex =
        st.FilteredResults.length - 1) ∧
    (st.FilteredResults = [] →
      HandleKeyDown st "ArrowRight" false = (st, none) ∧
      HandleKeyDown st "ArrowLeft" false = (st, none)) := by
  refine ⟨?_, ?_, ?_⟩
  · intro hne hsel
    have hlen : st.FilteredResults.length ≠ 0 := by
      simpa using hne
    unfold HandleKeyDown
    rw [hModal]
    simp only [Bool.false_and, Bool.false_eq_true, if_false]
    rw [if_neg (by simpa using hlen), if_pos (by decide)]
    show (st.SelectedIndex + 1) % st.FilteredResults.length = 0
    rw [hsel]
    have h' : st.FilteredResults.length - 1 + 1 = st.FilteredResults.length := by
      omega
    rw [h', Nat.mod_self]
  · intro hne hsel
    have hlen : st.FilteredResults.length ≠ 0 := by
      simpa using hne
    unfold HandleKeyDown
    rw [hModal]
    simp only [Bool.false_and, Bool.false_eq_true, if_false]
    rw [if_neg (by simpa using hlen), if_neg (by decide), if_pos (by decide)]
    show (st.SelectedIndex + st.FilteredResults.length - 1) %
        st.FilteredResults.length = st.FilteredResults.length - 1
    rw [hsel, Nat.zero_add, Nat.mod_eq_of_lt (by omega)]
  · intro hEmpty
    constructor <;>
      · unfold HandleKeyDown
        rw [hModal, hEmpty]
        simp

/-- C9 witness: in a two-element result list, ArrowRight from index 1 wraps
to 0 and ArrowLeft from index 0 wraps to 1; with no results, ArrowRight
changes nothing. -/
theorem HandleKeyDown_horizontal_wrap_witness :
    (HandleKeyDown
        { SearchQuery := "", SelectedIndex := 1, ShowAddModal := false,
          FilteredResults := [{ Character := "(A)", Tags := [], Category := "Joy" },
            { Character := "(B)", Tags := [], Category := "Joy" }], GridCols := 3 }
        "ArrowRight" false).1.SelectedIndex = 0 ∧
    (HandleKeyDown
        { SearchQuery := "", SelectedIndex := 0, ShowAddModal := false,
          FilteredResults := [{ Character := "(A)", Tags := [], Category := "Joy" },
            { Character := "(B)", Tags := [], Category := "Joy" }], GridCols := 3 }
        "ArrowLeft" false).1.SelectedIndex = 1 ∧
    HandleKeyDown
        { SearchQuery := "", SelectedIndex := 0, ShowAddModal := false,
          FilteredResults := [], GridCols := 3 } "ArrowRight" false =
      ({ SearchQuery := "", SelectedIndex := 0, ShowAddModal := false,
         FilteredResults := [], GridCols := 3 }, none) := by
  refine ⟨(HandleKeyDown_horizontal_wrap _ rfl).1 (by decide) rfl,
    (HandleKeyDown_horizontal_wrap _ rfl).2.1 (by decide) rfl,
    ((HandleKeyDown_horizontal_wrap _ rfl).2.2 rfl).1⟩

/-- C10 (counterexample): with an empty result list but the add-modal open,
the handled key Escape does change application state — the modal branch runs
before the empty-result guard and closes the modal. -/
theorem HandleKeyDown_modal_escape_counterexample :
    (HandleKeyDown
        { SearchQuery := "zzz", SelectedIndex := 0, ShowAddModal := true,
          FilteredResults := [], GridCols := 3 } "Escape" false).1 ≠
      { SearchQuery := "zzz", SelectedIndex := 0, ShowAddModal := true,
        FilteredResults := [], GridCols := 3 } := by
  decide

/-- C10 (amended): with the add-modal closed, an empty result list makes the
keyboard handler a complete no-op for every key and typing state: the
empty-count guard returns before any key branch, so Enter emits no copy
request and Escape does not clear the search query; when the modal is open,
Escape closes the modal (and changes nothing else), which is the one
exception to the claim as stated. -/
theorem HandleKeyDown_empty_results (st : AppState) (key : String)
    (isTyping : Bool) (hEmpty : st.FilteredResults = [])
    (hModal : st.ShowAddModal = false) :
    HandleKeyDown st key isTyping = (st, none) := by
  unfold HandleKeyDown
  rw [hModal, hEmpty]
  simp

/-- C10 amended witness: with no results and the modal closed, Enter and
Escape leave the concrete state untouched and emit no copy request. -/
theorem HandleKeyDown_empty_results_witness :
    HandleKeyDown
        { SearchQuery := "abc", SelectedIndex := 0, ShowAddModal := false,
          FilteredResults := [], GridCols := 3 } "Enter" false =
      ({ SearchQuery := "abc", SelectedIndex := 0, ShowAddModal := false,
         FilteredResults := [], GridCols := 3 }, none) ∧
    HandleKeyDown
        { SearchQuery := "abc", SelectedIndex := 0, ShowAddModal := false,
          FilteredResults := [], GridCols := 3 } "Escape" false =
      ({ SearchQuery := "abc", SelectedIndex := 0, ShowAddModal := false,
         FilteredResults := [], GridCols := 3 }, none) :=
  ⟨HandleKeyDown_empty_results _ "Enter" false rfl rfl,
   HandleKeyDown_empty_results _ "Escape" false rfl rfl⟩
